import Mathlib

/-!
# Verification of htop-ui (a terminal system monitor)

Shallow embedding of the Rust sources of `htop-ui` and proofs about them.

Modelling conventions:
* `u64`/`usize` values are `Nat`; a Rust panic (overflow-checked subtraction,
  integer division by zero, `Option::unwrap` / `Result::unwrap` on an absent
  value) is modelled by an `Option`-valued function returning `none`.
* `f32`/`f64` quantities (cpu/memory percentages, network rates) are modelled
  by `ℚ`; the program only adds, multiplies, divides and compares them, and the
  claims under study never exercise rounding error, infinities or NaN.
* `Duration`/`Instant` values are modelled by `Nat` (milliseconds).
* Rust's `sort_by` is a stable sort; it is modelled by `List.insertionSort`,
  which is also stable, with the same comparator.  A stable sort's output is
  uniquely determined by the comparator and the input order, so the model is
  extensionally exact.
* channel/async plumbing (`mpsc`, `tokio::spawn`) is modelled by explicit
  message queues (`List Message`) and per-cycle functions.
-/

/-! ## src/cmd/disk.rs -/

/-- Rust struct `Disk` (src/cmd/disk.rs). -/
structure Disk where
  name : String
  file_system : String
  total_space : Nat
  available_space : Nat
deriving DecidableEq

/-- Rust `Disk::new` (src/cmd/disk.rs). -/
def Disk.new (name : String) (file_system : String) (total_space : Nat)
    (available_space : Nat) : Disk :=
  { name, file_system, total_space, available_space }

/-- Rust `Disk::percent_used_space` (src/cmd/disk.rs):
`let used_space = self.total_space - self.available_space;
 return used_space * 100 / self.total_space;`.
The `u64` subtraction panics when `available_space > total_space`
(overflow-checked build), and the `u64` division panics when
`total_space = 0`; both panics are modelled by `none`. -/
def Disk.percent_used_space (d : Disk) : Option Nat :=
  if d.total_space < d.available_space then none
  else if d.total_space = 0 then none
  else some ((d.total_space - d.available_space) * 100 / d.total_space)

/-! ## src/cmd/process.rs -/

/-- Rust struct `Process` (src/cmd/process.rs). -/
structure Process where
  pid : Nat
  process_name : String
  user : String
  cpu_usage : ℚ
  mem_usage : ℚ
deriving DecidableEq

/-- Rust `Process::default()` (derived `Default`). -/
def Process.defaultValue : Process :=
  { pid := 0, process_name := "", user := "", cpu_usage := 0, mem_usage := 0 }

/-- Rust `Process::set_pid` (src/cmd/process.rs). -/
def Process.set_pid (p : Process) (pid : Nat) : Process := { p with pid }

/-- Rust `Process::set_process_name` (src/cmd/process.rs). -/
def Process.set_process_name (p : Process) (process_name : String) : Process :=
  { p with process_name }

/-- Rust `Process::set_user` (src/cmd/process.rs). -/
def Process.set_user (p : Process) (user : String) : Process := { p with user }

/-- Rust `Process::set_cpu_usage` (src/cmd/process.rs). -/
def Process.set_cpu_usage (p : Process) (cpu_usage : ℚ) : Process :=
  { p with cpu_usage }

/-- Rust `Process::set_mem_usage` (src/cmd/process.rs): stores
`mem_usage.round()`.  `f32::round` rounds half away from zero, which on the
nonnegative percentages this program computes coincides with Mathlib's
`round` (half up). -/
def Process.set_mem_usage (p : Process) (mem_usage : ℚ) : Process :=
  { p with mem_usage := ((round mem_usage : ℤ) : ℚ) }

/-- Rust `Process::build` (src/cmd/process.rs): always returns `Ok`. -/
def Process.build (p : Process) : Except Unit Process := Except.ok p

/-- Comparator of both process sorts in the program:
`|a, b| b.cpu_usage.partial_cmp(&a.cpu_usage)`, i.e. descending by
`cpu_usage`.  On `ℚ` (no NaN) `partial_cmp` is total, so
`unwrap`/`unwrap_or(Equal)` never changes the result. -/
def cpuDescOrder (a b : Process) : Prop := b.cpu_usage ≤ a.cpu_usage

instance : DecidableRel cpuDescOrder := fun a b =>
  inferInstanceAs (Decidable (b.cpu_usage ≤ a.cpu_usage))

instance : IsTotal Process cpuDescOrder := ⟨fun a b => le_total b.cpu_usage a.cpu_usage⟩

instance : IsTrans Process cpuDescOrder :=
  ⟨fun _ _ _ hab hbc => le_trans hbc hab⟩

/-- Rust `Process::sort_most_consume_cpu` (src/cmd/process.rs): stable
in-place sort descending by `cpu_usage`, modelled by the stable
`insertionSort` with the same comparator. -/
def Process.sort_most_consume_cpu (processes : List Process) : List Process :=
  processes.insertionSort cpuDescOrder

/-! ## src/cmd/network.rs -/

/-- Rust struct `Network` (src/cmd/network.rs). -/
structure Network where
  upload : ℚ
  download : ℚ
deriving DecidableEq

/-- Rust `Network::new` (src/cmd/network.rs). -/
def Network.new : Network := { upload := 0, download := 0 }

/-- Rust `Network::update` (src/cmd/network.rs). -/
def Network.update (_n : Network) (upload download : ℚ) : Network :=
  { upload, download }

/-! ## src/cmd/mod.rs — the samplers -/

/-- One entry of the `sysinfo` network-interface list, as read by
`get_network_info`: the interface name and the per-refresh `transmitted()` /
`received()` byte counters. -/
structure SysInterface where
  name : String
  transmitted : Nat
  received : Nat

/-- Rust `str::contains` (substring containment) on interface names. -/
def string_contains (hay pat : String) : Bool :=
  decide (pat.data <:+: hay.data)

/-- The interface-name pattern of `get_network_info` (src/cmd/mod.rs):
`interface.contains("wlp") || interface.contains("enp")`. -/
def matches_physical_interface (interface : String) : Bool :=
  string_contains interface "wlp" || string_contains interface "enp"

/-- The body of the per-cycle `for (interface, network) in &networks` loop of
`get_network_info` (src/cmd/mod.rs).  For each interface matching the name
pattern it accumulates `transmitted * 8 / 1000` and `received * 8 / 1000`
into the running sums, updates `net_data`, and sends one
`Message::Network(net_data)` — inside the loop, so one message per matching
interface.  The returned list is the sequence of sent messages of the cycle,
given the starting accumulator values. -/
def network_loop (ifaces : List SysInterface) (upload_gb download_gb : ℚ) :
    List Network :=
  match ifaces with
  | [] => []
  | i :: rest =>
    if matches_physical_interface i.name then
      let upload2 := upload_gb + (i.transmitted : ℚ) * 8 / 1000
      let download2 := download_gb + (i.received : ℚ) * 8 / 1000
      Network.new.update upload2 download2 ::
        network_loop rest upload2 download2
    else
      network_loop rest upload_gb download_gb

/-- One sampling cycle of `get_network_info` (src/cmd/mod.rs): the
accumulators `upload_gb`, `download_gb` start at `0.0` and the loop above
runs over the refreshed interface list; the result is the list of messages
published during the cycle. -/
def get_network_info_cycle (ifaces : List SysInterface) : List Network :=
  network_loop ifaces 0 0

/-- One entry of `sys.processes()` as read by `list_all_processes`
(src/cmd/mod.rs): pid, name, the (possibly absent) owner user id, the
resident memory in bytes, and the raw `cpu_usage()` reading. -/
structure SysProcess where
  pid : Nat
  name : String
  user_id : Option Nat
  memory : ℚ
  cpu_usage : ℚ

/-- Rust `Users::get_user_by_id` (the `sysinfo` user list), modelled as an
association-list lookup returning the user name. -/
def get_user_by_id (users : List (Nat × String)) (user_id : Nat) : Option String :=
  users.lookup user_id

/-- The body of one sampling cycle of `list_all_processes` (src/cmd/mod.rs),
iterating over the process snapshot:

```
let user_id = process.user_id().unwrap();
let user = users.get_user_by_id(user_id).unwrap().name();
let mem_usage = (process.memory() as f32 / total_mem as f32) * 100.0;
let cpu_usage = process.cpu_usage() / sys.global_cpu_usage();
if cpu_usage <= 0.0 || mem_usage <= 0.0 { continue; }
let proc = Process::default().set_pid(..)...build().unwrap();
vec_proc.push(proc);
```

The two `unwrap`s run before the filter; an absent `user_id` or a user id
missing from the user list panics the whole cycle, modelled by `none`. -/
def list_all_processes_cycle (total_mem global_cpu : ℚ)
    (users : List (Nat × String)) : List SysProcess → Option (List Process)
  | [] => some []
  | p :: rest => do
    let user_id ← p.user_id
    let user ← get_user_by_id users user_id
    let mem_usage := p.memory / total_mem * 100
    let cpu_usage := p.cpu_usage / global_cpu
    let tail ← list_all_processes_cycle total_mem global_cpu users rest
    if cpu_usage ≤ 0 ∨ mem_usage ≤ 0 then
      pure tail
    else do
      let proc ←
        match (((((Process.defaultValue.set_pid p.pid).set_process_name
            p.name).set_cpu_usage cpu_usage).set_mem_usage
            mem_usage).set_user user).build with
        | Except.ok q => some q
        | Except.error _ => none
      pure (proc :: tail)

/-! ## src/app/config.rs -/

/-- Rust struct `AppConfig` (src/app/config.rs); `Duration`s as
milliseconds, thresholds as `ℚ`. -/
structure AppConfig where
  tick_rate : Option Nat
  blink_threshold_rate : Option Nat
  cpu_threshold : Option ℚ
  single_cpu_threshold : Option ℚ
  mem_threshold : Option ℚ
deriving DecidableEq

/-- Rust `AppConfig::default()` (derived `Default`): every field `None`. -/
def AppConfig.defaultValue : AppConfig :=
  { tick_rate := none, blink_threshold_rate := none, cpu_threshold := none,
    single_cpu_threshold := none, mem_threshold := none }

/-- Rust `AppConfig::TICK_RATE = Duration::from_millis(100)`. -/
def AppConfig.TICK_RATE : Nat := 100

/-- Rust `AppConfig::BLINK_THRESHOLD_RATE = Duration::from_secs(1)`. -/
def AppConfig.BLINK_THRESHOLD_RATE : Nat := 1000

/-- Rust `AppConfig::CPU_THRESHOLD = 10.0`. -/
def AppConfig.CPU_THRESHOLD : ℚ := 10

/-- Rust `AppConfig::SINGLE_CPU_THRESHOLD = 50.0`. -/
def AppConfig.SINGLE_CPU_THRESHOLD : ℚ := 50

/-- Rust `AppConfig::MEM_THRESHOLD = 20.0`. -/
def AppConfig.MEM_THRESHOLD : ℚ := 20

/-- Rust `AppConfig::load_config` (src/app/config.rs).  The filesystem read
and the YAML parse are abstracted into their outcome:
`none` models `fs::read_to_string` failing (missing/unreadable file),
`some none` models `serde_yml::from_str` rejecting the contents, and
`some (some c)` a successful parse of `c`.  Both failure branches return
`AppConfig::default()`. -/
def AppConfig.load_config (read_parse_result : Option (Option AppConfig)) :
    AppConfig :=
  match read_parse_result with
  | none => AppConfig.defaultValue
  | some none => AppConfig.defaultValue
  | some (some config) => config

/-- Rust `AppConfig::new` (src/app/config.rs): loads the file and wraps
every field in `Some(field.unwrap_or(DEFAULT))`. -/
def AppConfig.new (read_parse_result : Option (Option AppConfig)) : AppConfig :=
  let config_yml := AppConfig.load_config read_parse_result
  { tick_rate := some (config_yml.tick_rate.getD AppConfig.TICK_RATE),
    blink_threshold_rate :=
      some (config_yml.blink_threshold_rate.getD AppConfig.BLINK_THRESHOLD_RATE),
    cpu_threshold := some (config_yml.cpu_threshold.getD AppConfig.CPU_THRESHOLD),
    single_cpu_threshold :=
      some (config_yml.single_cpu_threshold.getD AppConfig.SINGLE_CPU_THRESHOLD),
    mem_threshold := some (config_yml.mem_threshold.getD AppConfig.MEM_THRESHOLD) }

/-! ## src/app/mod.rs -/

/-- Rust enum `Message` as consumed by `App::run` (src/app/mod.rs). -/
inductive Message where
  | Processes : List Process → Message
  | CPUUsage : List ℚ → Message
  | MEMUsage : ℚ → Message
  | NetworkData : Network → Message
  | DiskUsage : List Disk → Message
deriving DecidableEq

/-- Rust struct `App` (src/app/mod.rs), restricted to its state: the store
fields (`processes`, `network`, `cores_usage`, `mem_usage`, `disks_usage`),
the table selection (`state : TableState`, kept as its selected row), the
blink flag and its timer, and the configuration.  Styling, the terminal and
the channel endpoints carry no verifiable state. -/
structure App where
  processes : List Process
  network : Network
  cores_usage : List ℚ
  mem_usage : ℚ
  disks_usage : List Disk
  state : Option Nat
  blink_threshold : Bool
  last_tick : Nat
  config : AppConfig
deriving DecidableEq

/-- Rust `App::new` (src/app/mod.rs): empty store,
`TableState::default().with_selected(0)`, blink flag off, configuration
from `AppConfig::new(CONFIG_PATH)` (file outcome abstracted as in
`AppConfig.load_config`). -/
def App.new (read_parse_result : Option (Option AppConfig)) : App :=
  { processes := [], network := Network.new, cores_usage := [], mem_usage := 0,
    disks_usage := [], state := some 0, blink_threshold := false,
    last_tick := 0, config := AppConfig.new read_parse_result }

/-- Rust `App::update_processes` (src/app/mod.rs): clear the table, keep the
snapshot entries with `cpu_usage >= 0.2` (the loop `continue`s on
`cpu_usage < 0.2`), then stable-sort descending by `cpu_usage`
(`sort_by(|a, b| b.cpu_usage.partial_cmp(&a.cpu_usage).unwrap())`). -/
def App.update_processes (a : App) (processes : List Process) : App :=
  let kept := processes.filter fun p => ! decide (p.cpu_usage < 0.2)
  { a with processes := kept.insertionSort cpuDescOrder }

/-- The `match msg` merge of `App::run` (src/app/mod.rs): the
category-specific application of one received message to the state. -/
def App.apply_message (a : App) (msg : Message) : App :=
  match msg with
  | Message.Processes proc =>
      a.update_processes (Process.sort_most_consume_cpu proc)
  | Message.CPUUsage cpu_usage => { a with cores_usage := cpu_usage }
  | Message.MEMUsage mem_usage => { a with mem_usage }
  | Message.NetworkData net_data =>
      { a with network := a.network.update net_data.upload net_data.download }
  | Message.DiskUsage disk_data => { a with disks_usage := disk_data }

/-- The message-receiving step of one iteration of the `App::run` loop
(src/app/mod.rs): `if let Ok(msg) = self.rx.try_recv() { match msg ... }`.
At most ONE message is received and applied per iteration; the render
(`terminal.draw`) then runs on the first component while the second
component is what is still pending on the bus. -/
def App.run_step (a : App) (bus : List Message) : App × List Message :=
  match bus with
  | [] => (a, [])
  | msg :: rest => (a.apply_message msg, rest)

/-- Modelled from the spec (the drain contract is not what src/app/mod.rs
implements): `drain(bus)` repeatedly calls try_receive until the bus is
empty, applying each message by its category-specific merge, all before the
render of the tick. -/
def App.drain (a : App) (bus : List Message) : App × List Message :=
  (bus.foldl App.apply_message a, [])

/-- Rust `App::handle_tick_threshold` (src/app/mod.rs):
`if self.last_tick.elapsed() >= self.config.blink_threshold_rate.unwrap()
 { self.blink_threshold = !self.blink_threshold; self.last_tick = Instant::now(); }`.
`now` is the current instant in milliseconds; `elapsed` is `now - last_tick`.
The `Option::unwrap` on the configured rate is modelled by the outer
`Option` (`none` = panic). -/
def App.handle_tick_threshold (now : Nat) (a : App) : Option App := do
  let rate ← a.config.blink_threshold_rate
  if rate ≤ now - a.last_tick then
    pure { a with blink_threshold := ! a.blink_threshold, last_tick := now }
  else
    pure a

/-- Rust `App::next_row` (src/app/mod.rs).  On `Some(row)` it computes
`self.processes.len() - 1` in `usize`: on an empty table this underflows
and panics (modelled by `none`); otherwise the selection saturates at the
last row. -/
def App.next_row (a : App) : Option App :=
  match a.state with
  | some row =>
      if a.processes.length = 0 then none
      else
        let newRow :=
          if a.processes.length - 1 ≤ row then a.processes.length - 1
          else row + 1
        some { a with state := some newRow }
  | none => some { a with state := some 0 }

/-- Rust `App::previous_row` (src/app/mod.rs): saturating decrement of the
selection; never panics. -/
def App.previous_row (a : App) : App :=
  match a.state with
  | some row => { a with state := some (if row = 0 then 0 else row - 1) }
  | none => { a with state := some 0 }

/-! ## Claims -/

/-- C1: the claim states that for every table of size N a sequence of
selection moves keeps the selected row in `[0, N-1]` and that a selection
move on an empty `ProcessTable` is a safe no-op, never a panic.  The code
violates this: in the initial state (`App::new` selects row 0, empty
process table) `App::next_row` evaluates `self.processes.len() - 1` with
`len() = 0`, a `usize` underflow that panics.  This theorem evaluates the
embedded code at that failing input. -/
theorem next_row_empty_table_panics : App.next_row (App.new none) = none := rfl

/-- C2: the claim states that `percent_used_space` computes
`(total - available) * 100 / total` and is guarded against `total = 0`,
returning 0 there.  The formula holds — `percent_used(total=100,
available=30) = 70` — but there is no guard: with `total_space = 0` the
code divides by zero and panics (modelled by `none`) instead of returning
the claimed defined value 0. -/
theorem percent_used_space_zero_total_panics :
    Disk.percent_used_space (Disk.new "disk" "ext4" 100 30) = some 70 ∧
    Disk.percent_used_space (Disk.new "disk" "ext4" 0 0) = none ∧
    Disk.percent_used_space (Disk.new "disk" "ext4" 0 0) ≠ some 0 := by
  refine ⟨rfl, rfl, ?_⟩
  decide

/-- C3 counterexample: the run loop of `App::run` is not a drain-until-empty
loop.  With two messages pending, after the receive step of one iteration a
message is still pending when `terminal.draw` renders, and the rendered
`mem_usage` differs from what the spec's atomic `drain` would expose. -/
theorem run_loop_is_not_a_drain :
    (App.run_step (App.new none) [Message.MEMUsage 1, Message.MEMUsage 2]).2 ≠ [] ∧
    (App.run_step (App.new none) [Message.MEMUsage 1, Message.MEMUsage 2]).1.mem_usage ≠
      (App.drain (App.new none) [Message.MEMUsage 1, Message.MEMUsage 2]).1.mem_usage := by
  constructor
  · simp [App.run_step]
  · norm_num [App.run_step, App.drain, App.apply_message]

/-- C3 amended: each iteration of the run loop applies AT MOST ONE pending
message (a single non-blocking `try_recv`) and then renders; the rest of
the bus stays pending for later iterations.  Applying that one message is
atomic with respect to the render, but a multi-message backlog is not
drained before the render of the tick. -/
theorem run_step_applies_at_most_one_message (a : App) (msg : Message)
    (rest : List Message) :
    App.run_step a (msg :: rest) = (a.apply_message msg, rest) := rfl

/-- C8: a tick flips the blink flag and resets the timer if and only if the
elapsed time since the last toggle is at least the configured
`blink_threshold_rate`; ticks before the interval elapses leave the state
unchanged, so the flag flips exactly once per elapsed interval no matter
how many ticks occur. -/
theorem handle_tick_threshold_toggles_iff (a : App) (now rate : Nat)
    (hrate : a.config.blink_threshold_rate = some rate) :
    (rate ≤ now - a.last_tick →
      App.handle_tick_threshold now a =
        some { a with blink_threshold := ! a.blink_threshold, last_tick := now }) ∧
    (now - a.last_tick < rate →
      App.handle_tick_threshold now a = some a) := by
  constructor
  · intro h
    simp [App.handle_tick_threshold, hrate, h]
  · intro h
    have hn : ¬ rate ≤ now - a.last_tick := not_le.mpr h
    simp [App.handle_tick_threshold, hrate, hn]

/-- Witness for C8: with the default configuration (rate 1000 ms) and
`last_tick = 0`, a tick at 2000 ms flips the flag and resets the timer, and
a tick at 500 ms changes nothing. -/
theorem handle_tick_threshold_toggles_iff_witness :
    App.handle_tick_threshold 2000 (App.new none) =
      some { App.new none with blink_threshold := ! (App.new none).blink_threshold, last_tick := 2000 } ∧
    App.handle_tick_threshold 500 (App.new none) = some (App.new none) := by
  constructor
  · exact (handle_tick_threshold_toggles_iff (App.new none) 2000 1000 rfl).1 (by decide)
  · exact (handle_tick_threshold_toggles_iff (App.new none) 500 1000 rfl).2 (by decide)

/-- C9: the receive step of a run-loop iteration with an empty bus (the
`Err` branch of `try_recv`) modifies none of the store's fields: processes,
network, cores_usage, mem_usage and disks_usage are all unchanged. -/
theorem run_step_empty_bus_unchanged (a : App) :
    (App.run_step a []).1.processes = a.processes ∧
    (App.run_step a []).1.network = a.network ∧
    (App.run_step a []).1.cores_usage = a.cores_usage ∧
    (App.run_step a []).1.mem_usage = a.mem_usage ∧
    (App.run_step a []).1.disks_usage = a.disks_usage ∧
    (App.run_step a []).2 = [] :=
  ⟨rfl, rfl, rfl, rfl, rfl, rfl⟩

/-- C10: whatever the outcome of reading and parsing the config file —
missing file, unparsable file, or any parsed contents — `AppConfig::new`
yields a configuration whose five fields are all `Some` (defaults fill any
absent value), so the `unwrap()`s on them in the tick and render paths
cannot panic. -/
theorem app_config_new_all_fields_some
    (read_parse_result : Option (Option AppConfig)) :
    (AppConfig.new read_parse_result).tick_rate.isSome = true ∧
    (AppConfig.new read_parse_result).blink_threshold_rate.isSome = true ∧
    (AppConfig.new read_parse_result).cpu_threshold.isSome = true ∧
    (AppConfig.new read_parse_result).single_cpu_threshold.isSome = true ∧
    (AppConfig.new read_parse_result).mem_threshold.isSome = true :=
  ⟨rfl, rfl, rfl, rfl, rfl⟩

/-- C5: the claim states that an absent user record (absent user id or a
user id with no user entry) leads to a placeholder user or a skipped entry
and never aborts the sampler's whole cycle.  The code instead calls
`process.user_id().unwrap()` and `users.get_user_by_id(user_id).unwrap()`,
before the filter, so either absence panics the sampler task and kills the
whole cycle (modelled by `none`), even for a single affected process. -/
theorem list_all_processes_missing_user_panics :
    list_all_processes_cycle 100 1 [(0, "bob")]
      [⟨1, "kworker", none, 1, 1⟩] = none ∧
    list_all_processes_cycle 100 1 [(0, "bob")]
      [⟨2, "orphan", some 7, 1, 1⟩] = none := by
  constructor
  · rfl
  · rfl

/-- Helper for C4: the network loop publishes one message per matching
interface, each holding the running cumulative sums; the last published
message (default: the accumulator values if nothing matches) carries the
accumulators plus the per-cycle totals `bytes * 8 / 1000`. -/
theorem network_loop_length_and_last (ifaces : List SysInterface) :
    ∀ upload_gb download_gb : ℚ,
      (network_loop ifaces upload_gb download_gb).length =
        (ifaces.filter fun i => matches_physical_interface i.name).length ∧
      (network_loop ifaces upload_gb download_gb).getLastD
          (Network.new.update upload_gb download_gb) =
        Network.new.update
          (upload_gb + (((ifaces.filter fun i => matches_physical_interface i.name).map
              fun i => (i.transmitted : ℚ) * 8 / 1000).sum))
          (download_gb + (((ifaces.filter fun i => matches_physical_interface i.name).map
              fun i => (i.received : ℚ) * 8 / 1000).sum)) := by
  induction ifaces with
  | nil =>
    intro u d
    simp [network_loop]
  | cons i rest ih =>
    intro u d
    by_cases h : matches_physical_interface i.name
    · have h1 := ih (u + (i.transmitted : ℚ) * 8 / 1000)
        (d + (i.received : ℚ) * 8 / 1000)
    
      refine ⟨?_, ?_⟩
      · simp only [network_loop, h, if_true, List.length_cons, List.filter_cons]
        simp [h1.1]
      · simp only [network_loop, h, if_true, List.getLastD_cons, List.filter_cons]
        rw [h1.2]
        simp only [Network.update, Network.new, List.map_cons, List.sum_cons]
        refine congrArg₂ Network.mk ?_ ?_ <;> ring
    · have h1 := ih u d
      refine ⟨?_, ?_⟩
      · simp only [network_loop, h, if_false, List.filter_cons]
        simp [h1.1, h]
      · have h2 := h1.2
        rw [List.getLastD_eq_getLast?] at h2
        simp only [network_loop, h, if_false, List.filter_cons]
        simpa [h] using h2

/-- C4 counterexample: with two matching interfaces (`wlp3s0`: 1000 B sent,
2000 B received; `enp4s0`: 1000 B sent, 500 B received) a single sampling
cycle publishes TWO messages, not the claimed exactly one: first the partial
sums (8.0, 16.0), then the totals (16.0, 20.0). -/
theorem get_network_info_two_messages_per_cycle :
    (get_network_info_cycle
      [⟨"wlp3s0", 1000, 2000⟩, ⟨"enp4s0", 1000, 500⟩]).length ≠ 1 ∧
    get_network_info_cycle [⟨"wlp3s0", 1000, 2000⟩, ⟨"enp4s0", 1000, 500⟩] =
      [Network.new.update 8 16, Network.new.update 16 20] := by
  have hw : matches_physical_interface "wlp3s0" = true := by decide
  have he : matches_physical_interface "enp4s0" = true := by decide
  constructor
  · norm_num [get_network_info_cycle, network_loop, hw, he]
  · norm_num [get_network_info_cycle, network_loop, hw, he, Network.update, Network.new]

/-- C4 amended: on every sampling cycle the network sampler publishes one
message PER matching interface (the `tx.send` sits inside the interface
loop), each carrying the running cumulative sums in kilobits per second
(`bytes * 8 / 1000`); the LAST message of the cycle carries the sum over
all matching interfaces — (16.0, 20.0) for the example — and non-matching
interfaces contribute nothing. -/
theorem get_network_info_cycle_messages (ifaces : List SysInterface) :
    (get_network_info_cycle ifaces).length =
      (ifaces.filter fun i => matches_physical_interface i.name).length ∧
    (get_network_info_cycle ifaces).getLastD Network.new =
      Network.new.update
        (((ifaces.filter fun i => matches_physical_interface i.name).map
            fun i => (i.transmitted : ℚ) * 8 / 1000).sum)
        (((ifaces.filter fun i => matches_physical_interface i.name).map
            fun i => (i.received : ℚ) * 8 / 1000).sum) := by
  have h := network_loop_length_and_last ifaces 0 0
  constructor
  · exact h.1
  · have h2 := h.2
    simp only [Network.update, Network.new, zero_add] at h2 ⊢
    exact h2

/-- Helper for C6: a stable sort by `cpu_usage` does not reorder the
elements selected by any predicate that pins `cpu_usage` to one value
(rows of equal sort key keep their relative order). -/
theorem filter_insertionSort_of_cpu_eq (r : Process → Bool) (c : ℚ)
    (hr : ∀ p, r p = true → p.cpu_usage = c) (m : List Process) :
    (m.insertionSort cpuDescOrder).filter r = m.filter r := by
  have hpair : (m.filter r).Pairwise cpuDescOrder := by
    apply List.pairwise_of_forall_mem_list
    intro a ha b hb
    have ha2 := (List.mem_filter.mp ha).2
    have hb2 := (List.mem_filter.mp hb).2
    show b.cpu_usage ≤ a.cpu_usage
    rw [hr a ha2, hr b hb2]
  have hsub : (m.filter r).Sublist (m.insertionSort cpuDescOrder) :=
    List.sublist_insertionSort hpair (List.filter_sublist m)
  have hsub2 : (m.filter r).Sublist ((m.insertionSort cpuDescOrder).filter r) := by
    have h3 := hsub.filter r
    rwa [List.filter_eq_self.mpr fun a ha => (List.mem_filter.mp ha).2] at h3
  have hlen : ((m.insertionSort cpuDescOrder).filter r).length = (m.filter r).length :=
    ((List.perm_insertionSort cpuDescOrder m).filter r).length_eq
  exact (hsub2.eq_of_length hlen.symm).symm

/-- C6: after every `ProcessTable` update (the `Message::Processes` merge:
`sort_most_consume_cpu`, then `update_processes`' visibility filter and
second sort) the stored rows are sorted descending by `cpu_usage`, and rows
of equal `cpu_usage` keep their original relative snapshot order: for every
value `c`, the rows of the table with `cpu_usage = c` are exactly the
snapshot rows with `cpu_usage = c` that pass the `0.2` floor, in snapshot
order. -/
theorem update_processes_sorted_and_stable (a : App) (snapshot : List Process) :
    ((a.apply_message (Message.Processes snapshot)).processes).Pairwise cpuDescOrder ∧
    ∀ c : ℚ,
      ((a.apply_message (Message.Processes snapshot)).processes).filter
          (fun p => decide (p.cpu_usage = c)) =
        snapshot.filter
          (fun p => decide (p.cpu_usage = c) && ! decide (p.cpu_usage < 0.2)) := by
  have hform : (a.apply_message (Message.Processes snapshot)).processes =
      ((snapshot.insertionSort cpuDescOrder).filter
        (fun p => ! decide (p.cpu_usage < 0.2))).insertionSort cpuDescOrder := rfl
  constructor
  · rw [hform]
    exact List.sorted_insertionSort cpuDescOrder _
  · intro c
    rw [hform]
    rw [filter_insertionSort_of_cpu_eq (fun p => decide (p.cpu_usage = c)) c
      (fun p hp => of_decide_eq_true hp)]
    rw [List.filter_filter]
    rw [filter_insertionSort_of_cpu_eq
      (fun p => decide (p.cpu_usage = c) && ! decide (p.cpu_usage < 0.2)) c
      (by
        intro p hp
        simp only [Bool.and_eq_true, decide_eq_true_eq] at hp
        exact hp.1)]

/-- Helper for C7: every process the sampler cycle publishes passed the
`cpu_usage <= 0.0 || mem_usage <= 0.0` exclusion: its stored cpu percentage
is strictly positive and its stored (rounded) memory percentage is
nonnegative. -/
theorem list_all_processes_cycle_entries_pos (tm gc : ℚ) (users : List (Nat × String)) :
    ∀ (snap : List SysProcess) (out : List Process),
      list_all_processes_cycle tm gc users snap = some out →
      ∀ p ∈ out, 0 < p.cpu_usage ∧ 0 ≤ p.mem_usage := by
  intro snap
  induction snap with
  | nil =>
    intro out h p hp
    simp only [list_all_processes_cycle, Option.some.injEq] at h
    subst h
    simp at hp
  | cons sp rest ih =>
    intro out h p hp
    simp only [list_all_processes_cycle, Process.build, Option.bind_eq_bind] at h
    obtain ⟨uid, huid, h⟩ := Option.bind_eq_some.mp h
    obtain ⟨user, huser, h⟩ := Option.bind_eq_some.mp h
    obtain ⟨tail, htail, h⟩ := Option.bind_eq_some.mp h
    split at h
    · simp only [Option.pure_def, Option.some.injEq] at h
      subst h
      exact ih tail htail p hp
    · rename_i hc
      push_neg at hc
      simp only [Option.pure_def, Option.some_bind, Option.some.injEq] at h
      subst h
      rcases List.mem_cons.mp hp with hph | hpt
      · subst hph
        constructor
        · simpa [Process.defaultValue, Process.set_pid, Process.set_process_name,
            Process.set_cpu_usage, Process.set_mem_usage, Process.set_user] using hc.1
        · simp only [Process.defaultValue, Process.set_pid, Process.set_process_name,
            Process.set_cpu_usage, Process.set_mem_usage, Process.set_user]
          have h2 := hc.2
          rw [round_eq]
          have h3 : (0:ℤ) ≤ ⌊sp.memory / tm * 100 + 1 / 2⌋ :=
            Int.floor_nonneg.mpr (by linarith)
          exact_mod_cast h3
      · exact ih tail htail p hpt

/-- Helper for C7: every row the store keeps after a `Message::Processes`
merge passed the `0.2` visibility floor of `update_processes`. -/
theorem table_rows_above_floor (a : App) (snap : List Process) :
    ∀ p ∈ (a.apply_message (Message.Processes snap)).processes,
      ¬ p.cpu_usage < 0.2 := by
  intro p hp
  have hform : (a.apply_message (Message.Processes snap)).processes =
      ((snap.insertionSort cpuDescOrder).filter
        (fun p => ! decide (p.cpu_usage < 0.2))).insertionSort cpuDescOrder := rfl
  rw [hform, List.mem_insertionSort, List.mem_filter] at hp
  simpa using hp.2

/-- C7: the sampler excludes snapshot entries with computed
`cpu_percent <= 0` or `mem_percent <= 0` (every published entry has positive
cpu and nonnegative stored memory), the store additionally drops rows below
the 0.2 cpu visibility floor, and on the claimed scenario — provider
snapshot (1,"a",cpu 0.05,mem 0.1), (2,"b",9.9,5.0), (3,"c",0.0,0.0), owner
"bob", total memory scaled so the given percentages are the computed ones —
the resulting `ProcessTable` after filter and sort is exactly
[(2,"b","bob",9.9,5.0)]. -/
theorem process_filter_pipeline :
    ((list_all_processes_cycle 100 1 [(0, "bob")]
        [⟨1, "a", some 0, 1/10, 1/20⟩, ⟨2, "b", some 0, 5, 99/10⟩,
         ⟨3, "c", some 0, 0, 0⟩]).map
      (fun procs => (App.apply_message (App.new none) (Message.Processes procs)).processes)
      = some [Process.mk 2 "b" "bob" (99/10) 5]) ∧
    (∀ (tm gc : ℚ) (users : List (Nat × String)) (snap : List SysProcess)
        (out : List Process),
      list_all_processes_cycle tm gc users snap = some out →
      ∀ p ∈ out, 0 < p.cpu_usage ∧ 0 ≤ p.mem_usage) ∧
    (∀ (a : App) (snap : List Process),
      ∀ p ∈ (a.apply_message (Message.Processes snap)).processes,
        ¬ p.cpu_usage < 0.2) := by
  refine ⟨?_, ?_, table_rows_above_floor⟩
  · norm_num [list_all_processes_cycle, get_user_by_id, List.lookup, Process.build,
      Process.defaultValue, Process.set_pid, Process.set_process_name, Process.set_user,
      Process.set_cpu_usage, Process.set_mem_usage, App.apply_message, App.update_processes,
      Process.sort_most_consume_cpu, List.insertionSort, List.orderedInsert, List.filter,
      App.new, round_eq, cpuDescOrder]
  · intro tm gc users
    exact list_all_processes_cycle_entries_pos tm gc users

/-- Witness for C7: the surviving row (2,"b","bob",9.9,5.0) of the scenario
has positive sampler cpu (via the sampler-exclusion conjunct, applied to a
one-process snapshot) and passes the 0.2 store floor (via the floor
conjunct, applied to the one-row table that contains it). -/
theorem process_filter_pipeline_witness :
    (0 : ℚ) < (Process.mk 2 "b" "bob" (99/10) 5).cpu_usage ∧
    ¬ (Process.mk 2 "b" "bob" (99/10) 5).cpu_usage < 0.2 := by
  constructor
  · refine (process_filter_pipeline.2.1 100 1 [(0, "bob")]
      [⟨2, "b", some 0, 5, 99/10⟩] [Process.mk 2 "b" "bob" (99/10) 5] ?_
      (Process.mk 2 "b" "bob" (99/10) 5) ?_).1
    · norm_num [list_all_processes_cycle, get_user_by_id, List.lookup, Process.build,
        Process.defaultValue, Process.set_pid, Process.set_process_name, Process.set_user,
        Process.set_cpu_usage, Process.set_mem_usage, round_eq]
    · simp
  · refine process_filter_pipeline.2.2 (App.new none)
      [Process.mk 2 "b" "bob" (99/10) 5] (Process.mk 2 "b" "bob" (99/10) 5) ?_
    norm_num [App.apply_message, App.update_processes, Process.sort_most_consume_cpu,
      List.insertionSort, List.orderedInsert, List.filter, cpuDescOrder]
